import Mathlib

/-!
# Shallow embedding of the mcp-web-search server core (src/index.ts)

The repository exposes two tools, `search` and `fetch`, over MCP.  The
definitions below are translated from the TypeScript source:

* `createHttpClient` (index.ts lines 271-300): proxy resolution from the
  environment and fallback to a direct client.
* `setupToolHandlers` dispatch for `search` (lines 415-416): the effective
  limit computation `Math.min(arguments.limit || 5, 10)`.
* `performSearch` (lines 469-520): result-container collection with early
  exit, and the sentinel error result.
* `fetchUrl` (lines 522-636): max-bytes normalization, request config,
  content-type extraction, charset detection, truncation, binary
  classification, text decoding with utf-8 fallback, final-url resolution,
  and the transport-error result.

Effects (HTTP transport, `TextDecoder`, the environment) are passed in
explicitly as function arguments; JavaScript string truthiness is modelled
by explicit emptiness tests, and JS numbers by `Int` (the tools validate
their numeric arguments as numbers; fractional values are out of model).
-/

namespace WebSearch

/-- `interface SearchResult` (index.ts lines 243-247). -/
structure SearchResult where
  title : String
  url : String
  description : String
  deriving Repr, DecidableEq

/-- `interface FetchResult` (index.ts lines 249-258).  Header values may be
a single string or a list of strings (axios exposes both). -/
inductive HeaderValue where
  | str : String → HeaderValue
  | list : List String → HeaderValue
  deriving Repr, DecidableEq

structure FetchResult where
  url : String
  final_url : String
  status : Int
  content_type : Option String
  encoding : Option String
  headers : List (String × HeaderValue)
  body : String
  truncated : Bool
  deriving Repr, DecidableEq

/-! ## HTTP client factory (`createHttpClient`, lines 271-300) -/

/-- A JS string is truthy iff it is non-empty; `undefined` is falsy. -/
def isTruthy : Option String → Bool
  | none => false
  | some s => s ≠ ""

/-- JS `a || b` on string-or-undefined values: `b` when `a` is falsy. -/
def jsOr (a b : Option String) : Option String :=
  if isTruthy a then a else b

/-- The client that `createHttpClient` returns: either the default (direct)
axios instance or one configured with a proxy agent. -/
inductive HttpClient where
  | direct : HttpClient
  | proxied : String → HttpClient
  deriving Repr, DecidableEq

/-- `process.env.HTTPS_PROXY || process.env.https_proxy ||
process.env.HTTP_PROXY || process.env.http_proxy` (lines 272-276). -/
def resolveProxyEnv (env : String → Option String) : Option String :=
  jsOr (env "HTTPS_PROXY")
    (jsOr (env "https_proxy")
      (jsOr (env "HTTP_PROXY") (env "http_proxy")))

/-- `createHttpClient` (lines 271-300).  `mkAgent` models
`new HttpsProxyAgent(proxyEnv)`, returning `none` when construction throws.
The second component records whether the warning branch (line 294,
`console.error`) executed. -/
def createHttpClient (mkAgent : String → Option String)
    (env : String → Option String) : HttpClient × Bool :=
  let proxyEnv := resolveProxyEnv env
  if isTruthy proxyEnv then
    match mkAgent (proxyEnv.getD "") with
    | some agent => (HttpClient.proxied agent, false)
    | none => (HttpClient.direct, true)
  else
    (HttpClient.direct, false)

/-! ## Search dispatch and extraction (`setupToolHandlers`, `performSearch`) -/

/-- `const limit = Math.min(request.params.arguments.limit || 5, 10);`
(line 416).  `none` models an absent argument; `0` is falsy in JS. -/
def dispatchLimit (limit : Option Int) : Int :=
  min (match limit with
       | none => 5
       | some l => if l = 0 then 5 else l) 10

/-- One parsed `.result` container: the extracted (trimmed) title text, the
title anchor `href` (`|| ''` applied, so absent attribute = `""`), and the
snippet text (lines 498-501). -/
structure Container where
  title : String
  url : String
  description : String
  deriving Repr, DecidableEq

/-- `if (title && url)` (line 503). -/
def validContainer (c : Container) : Bool :=
  c.title ≠ "" && c.url ≠ ""

def toSearchResult (c : Container) : SearchResult :=
  { title := c.title, url := c.url, description := c.description }

/-- The `$('.result').each` loop body (lines 494-507): stop when
`results.length >= limit`, push containers having both title and url. -/
def collectGo : List Container → Int → List SearchResult → List SearchResult
  | [], _, acc => acc.reverse
  | c :: cs, limit, acc =>
    if (acc.length : Int) ≥ limit then acc.reverse
    else if validContainer c then collectGo cs limit (toSearchResult c :: acc)
    else collectGo cs limit acc

/-- The full collection pass over the parsed containers. -/
def collectResults (cs : List Container) (limit : Int) : List SearchResult :=
  collectGo cs limit []

/-- `performSearch` (lines 469-520).  `outcome` is the combined result of
the HTTP GET and the cheerio parse: a list of result containers on
success, the error message on any thrown failure.  The catch branch
(lines 510-519) returns the sentinel result. -/
def performSearch (limit : Int)
    (outcome : Except String (List Container)) : List SearchResult :=
  match outcome with
  | Except.ok cs => collectResults cs limit
  | Except.error msg =>
      [{ title := "Search error", url := "", description := msg }]

/-! ## Fetch pipeline (`fetchUrl`, lines 522-636) -/

/-- The arguments accepted by the `fetch` tool (`isValidFetchArgs`,
lines 311-322): `url` required, the rest optional numbers / boolean. -/
structure FetchArgs where
  url : String
  max_bytes : Option Int := none
  timeout_ms : Option Int := none
  follow_redirects : Option Bool := none
  deriving Repr, DecidableEq

/-- `const maxBytes = typeof max_bytes === 'number' && max_bytes > 0 ?
max_bytes : 200000;` after the destructuring default `max_bytes = 200000`
(lines 530, 535-536). -/
def normalizeMaxBytes (max_bytes : Option Int) : Int :=
  let m := max_bytes.getD 200000
  if 0 < m then m else 200000

/-- The axios request config that `fetchUrl` builds (lines 539-551):
`responseType: 'arraybuffer'`, `timeout: timeout_ms` (destructuring default
15000), `maxRedirects: follow_redirects ? 5 : 0` (default `true`), and
`validateStatus: () => true`. -/
structure RequestConfig where
  url : String
  responseType : String
  timeout : Int
  maxRedirects : Int
  validateStatusAll : Bool
  deriving Repr, DecidableEq

def buildFetchConfig (args : FetchArgs) : RequestConfig :=
  { url := args.url
    responseType := "arraybuffer"
    timeout := args.timeout_ms.getD 15000
    maxRedirects := if args.follow_redirects.getD true then 5 else 0
    validateStatusAll := true }

/-- The observable parts of an axios response used by `fetchUrl`:
`status`, normalized (lower-cased-name) `headers`, raw byte `data`,
`request.res.responseUrl` and `config.url` (both possibly absent). -/
structure HttpResponse where
  status : Int
  headers : List (String × HeaderValue)
  data : List Nat
  responseUrl : Option String := none
  configUrl : Option String := none
  deriving Repr, DecidableEq

/-- Lines 553-556: `Array.isArray(raw) ? raw[0] : raw || null`.
An empty header array yields `undefined` (modelled `none`); an empty
string value is falsy, yielding `null`. -/
def extractContentType (headers : List (String × HeaderValue)) : Option String :=
  match headers.lookup "content-type" with
  | some (HeaderValue.list ss) => ss.head?
  | some (HeaderValue.str s) => if s = "" then none else some s
  | none => none

/-- JS `String.prototype.toLowerCase`, modelled character-wise (ASCII). -/
def strToLower (s : String) : String :=
  String.mk (s.data.map Char.toLower)

/-- Regex `^pat` / `String.prototype.startsWith`: prefix test. -/
def strIsPrefixOf (p s : String) : Bool :=
  p.data.isPrefixOf s.data

/-- JS `String.prototype.trim`: strip leading and trailing whitespace. -/
def trimChars (l : List Char) : List Char :=
  ((l.dropWhile Char.isWhitespace).reverse.dropWhile Char.isWhitespace).reverse

/-- `[^;]+` after `charset=`: greedily take characters up to `;` or end. -/
def takeUntilSemi : List Char → List Char
  | [] => []
  | c :: cs => if c = ';' then [] else c :: takeUntilSemi cs

/-- The regex search `/charset=([^;]+)/i` over the character list: at each
position, match the literal `charset=` case-insensitively, then capture one
or more non-`;` characters; on failure keep scanning. -/
def matchCharset : List Char → Option (List Char)
  | [] => none
  | c :: cs =>
    let captured := takeUntilSemi (List.drop 8 (c :: cs))
    if (List.take 8 (c :: cs)).map Char.toLower = "charset=".toList
        ∧ captured ≠ [] then
      some captured
    else
      matchCharset cs

/-- Lines 558-564: extract and normalize the charset parameter,
`match[1].trim().toLowerCase()`; the guard `contentType && typeof
contentType === 'string'` makes an empty content-type yield no charset. -/
def detectEncoding (contentType : Option String) : Option String :=
  match contentType with
  | some ct =>
      if ct ≠ "" then
        (matchCharset ct.data).map
          (fun l => String.mk ((trimChars l).map Char.toLower))
      else none
  | none => none

/-- Lines 575-581: the binary classification over the lower-cased
content-type (`''` when absent).  `/^application\/(pdf|zip|x-)/` is a
prefix test for each alternative. -/
def isBinaryCt (ct : String) : Bool :=
  strIsPrefixOf "image/" ct || strIsPrefixOf "audio/" ct ||
  strIsPrefixOf "video/" ct || strIsPrefixOf "application/pdf" ct ||
  strIsPrefixOf "application/zip" ct || strIsPrefixOf "application/x-" ct ||
  ct == "application/octet-stream"

/-- Lines 583-599: produce the body text and possibly updated encoding.
`tryDecode` models `new TextDecoder(charset)` + `decode` inside the `try`
(`none` = the construction/decoding threw); `utf8Fallback` models the
catch-branch `new TextDecoder('utf-8').decode`, which does not throw. -/
def computeBody (tryDecode : String → List Nat → Option String)
    (utf8Fallback : List Nat → String) (encoding : Option String)
    (ct : String) (limitedBuffer : List Nat) : String × Option String :=
  if isBinaryCt ct then
    ("Unsupported content-type", encoding)
  else
    let charset := encoding.getD "utf-8"
    match tryDecode charset limitedBuffer with
    | some body => (body, encoding)
    | none =>
        (utf8Fallback limitedBuffer,
         if encoding.isNone then some "utf-8" else encoding)

/-- Lines 601-607: `final_url` is `request.res.responseUrl` if truthy,
else `config.url` if truthy, else the input `url`. -/
def resolveFinalUrl (url : String) (responseUrl configUrl : Option String) :
    String :=
  if isTruthy responseUrl then responseUrl.getD ""
  else if isTruthy configUrl then configUrl.getD ""
  else url

/-- `fetchUrl` (lines 522-636).  `transport` models the awaited
`httpClient.get(url, config)`: an `HttpResponse` on transport success
(any status code, since `validateStatus` is always true), or the thrown
error's message text.  The catch branch (lines 621-635) builds the
status-0 result. -/
def fetchUrl (tryDecode : String → List Nat → Option String)
    (utf8Fallback : List Nat → String)
    (transport : RequestConfig → Except String HttpResponse)
    (args : FetchArgs) : FetchResult :=
  match transport (buildFetchConfig args) with
  | Except.error message =>
      { url := args.url
        final_url := args.url
        status := 0
        content_type := none
        encoding := none
        headers := []
        body := message
        truncated := false }
  | Except.ok response =>
      let maxBytes := normalizeMaxBytes args.max_bytes
      let contentType := extractContentType response.headers
      let encoding := detectEncoding contentType
      let buffer := response.data
      let truncated := decide ((buffer.length : Int) > maxBytes)
      let limitedBuffer :=
        if (buffer.length : Int) > maxBytes then buffer.take maxBytes.toNat
        else buffer
      let ct := (contentType.map strToLower).getD ""
      let be := computeBody tryDecode utf8Fallback encoding ct limitedBuffer
      let finalUrl := resolveFinalUrl args.url response.responseUrl
        response.configUrl
      { url := args.url
        final_url := finalUrl
        status := response.status
        content_type := contentType
        encoding := be.2
        headers := response.headers
        body := be.1
        truncated := truncated }

/-! ## Characterization of the collection loop -/

/-- The `each` loop is equivalent to: filter the valid containers, take
`limit` of them (none when the accumulator already reached `limit`). -/
theorem collectGo_spec (limit : Int) :
    ∀ (cs : List Container) (acc : List SearchResult),
      collectGo cs limit acc =
        if (acc.length : Int) ≥ limit then acc.reverse
        else acc.reverse ++
          (((cs.filter validContainer).take (limit - acc.length).toNat).map
            toSearchResult)
  | [], acc => by
      simp only [collectGo, List.filter_nil, List.take_nil, List.map_nil,
        List.append_nil]
      split <;> rfl
  | c :: cs, acc => by
      by_cases h : (acc.length : Int) ≥ limit
      · simp only [collectGo, if_pos h]
      · rw [collectGo, if_neg h, if_neg h]
        by_cases hv : validContainer c
        · rw [if_pos hv, collectGo_spec limit cs (toSearchResult c :: acc)]
          have hpos : (limit - (acc.length : Int)).toNat
              = (limit - (acc.length : Int) - 1).toNat + 1 := by omega
          rw [List.filter_cons_of_pos hv, hpos, List.take_succ_cons]
          by_cases h2 : ((toSearchResult c :: acc).length : Int) ≥ limit
          · rw [if_pos h2]
            have h0 : (limit - (acc.length : Int) - 1).toNat = 0 := by
              simp only [List.length_cons] at h2
              omega
            simp [h0]
          · rw [if_neg h2]
            simp only [List.length_cons, List.map_cons, List.reverse_cons]
            have harith : limit - ((acc.length : Int) + 1)
                = limit - (acc.length : Int) - 1 := by ring
            push_cast
            rw [harith]
            simp [List.append_assoc]
        · rw [if_neg hv, collectGo_spec limit cs acc, if_neg h,
            List.filter_cons_of_neg hv]

/-- For a positive limit, collection is filter-then-take-then-map. -/
theorem collectResults_eq (cs : List Container) (limit : Int)
    (h : 1 ≤ limit) :
    collectResults cs limit =
      ((cs.filter validContainer).take limit.toNat).map toSearchResult := by
  rw [collectResults, collectGo_spec]
  simp only [List.length_nil, Nat.cast_zero, List.reverse_nil,
    List.nil_append, Int.sub_zero]
  rw [if_neg (by omega)]

/-! ## Claim theorems: search side -/

/-- C2: for every query and limit, when the search request or the HTML
parse fails, `performSearch` does not raise and returns exactly a
one-element sequence whose single SearchResult has title `"Search error"`,
url `""`, and description equal to the error message. -/
theorem search_error_sentinel (limit : Int) (msg : String) :
    performSearch limit (Except.error msg) =
      [{ title := "Search error", url := "", description := msg }] := rfl

/-- C3: for every limit in `[1,10]` and every parsed result page, a
successful search returns the first `limit` valid containers in document
order (containers missing a title or URL are skipped without counting
against the limit, and collection stops at `limit`), so at most `limit`
results are returned, each with non-empty title and url. -/
theorem search_limit_spec (limit : Int) (h1 : 1 ≤ limit) (_h2 : limit ≤ 10)
    (cs : List Container) :
    performSearch limit (Except.ok cs) =
      ((cs.filter validContainer).take limit.toNat).map toSearchResult ∧
    (performSearch limit (Except.ok cs)).length ≤ limit.toNat ∧
    ∀ r ∈ performSearch limit (Except.ok cs), r.title ≠ "" ∧ r.url ≠ "" := by
  have he : performSearch limit (Except.ok cs) =
      ((cs.filter validContainer).take limit.toNat).map toSearchResult :=
    collectResults_eq cs limit h1
  refine ⟨he, ?_, ?_⟩
  · rw [he]
    simp only [List.length_map]
    exact List.length_take_le limit.toNat (cs.filter validContainer)
  · intro r hr
    rw [he] at hr
    obtain ⟨c, hc, hrc⟩ := List.mem_map.1 hr
    have hcv : validContainer c := by
      have := List.mem_filter.1 (List.mem_of_mem_take hc)
      exact this.2
    rw [← hrc]
    simpa [validContainer, toSearchResult] using hcv

/-- Witness for C3 at limit 2 over a four-container page with one invalid
container. -/
theorem search_limit_spec_witness :
    performSearch 2 (Except.ok
      [{ title := "A", url := "u1", description := "d1" },
       { title := "", url := "u2", description := "d2" },
       { title := "B", url := "u3", description := "" },
       { title := "C", url := "u4", description := "d4" }]) =
      [{ title := "A", url := "u1", description := "d1" },
       { title := "B", url := "u3", description := "" }] := by
  rw [(search_limit_spec 2 (by norm_num) (by norm_num) _).1]
  rfl

/-- C8 counterexample: the dispatch layer computes
`Math.min(limit || 5, 10)`, which does not raise a negative limit into
`[1,10]`: for input limit `-1` the effective limit is `-1`, and
`performSearch` does not clamp internally either — it returns the empty
list even over a page with a valid result container. -/
theorem limit_clamp_counterexample :
    dispatchLimit (some (-1)) = -1 ∧ ¬(1 ≤ dispatchLimit (some (-1))) ∧
    performSearch (dispatchLimit (some (-1)))
      (Except.ok [{ title := "A", url := "u", description := "" }]) = [] := by
  refine ⟨rfl, by decide, rfl⟩

/-- C8 amended: the dispatcher maps an absent or zero limit to 5 and clamps
limits above 10 down to 10, but a limit below 1 passes through unchanged,
and `performSearch` performs no internal clamping: with a negative
effective limit it returns the empty list on any successful parse. -/
theorem limit_clamp_amended (l : Int) (hl : l < 0) :
    dispatchLimit none = 5 ∧ dispatchLimit (some 0) = 5 ∧
    (∀ m : Int, 10 < m → dispatchLimit (some m) = 10) ∧
    dispatchLimit (some l) = l ∧
    ∀ cs, performSearch l (Except.ok cs) = [] := by
  refine ⟨rfl, rfl, ?_, ?_, ?_⟩
  · intro m hm
    simp only [dispatchLimit]
    rw [if_neg (by omega)]
    omega
  · simp only [dispatchLimit]
    rw [if_neg (by omega)]
    omega
  · intro cs
    rw [performSearch, collectResults, collectGo_spec]
    rw [if_pos (by simp; omega)]
    rfl

/-- Witness for C8's amended claim at limits `20` and `-3`. -/
theorem limit_clamp_amended_witness :
    dispatchLimit (some 20) = 10 ∧
    dispatchLimit (some (-3)) = -3 ∧
    performSearch (-3)
      (Except.ok [{ title := "A", url := "u", description := "" }]) = [] :=
  ⟨(limit_clamp_amended (-3) (by norm_num)).2.2.1 20 (by norm_num),
   (limit_clamp_amended (-3) (by norm_num)).2.2.2.1,
   (limit_clamp_amended (-3) (by norm_num)).2.2.2.2 _⟩

/-! ## Claim theorems: fetch side -/

/-- C1: when the underlying HTTP request throws, `fetchUrl` does not raise
and returns a FetchResult with status 0, no content type or encoding,
empty headers, `truncated = false`, the error message as body, and both
urls equal to the input url. -/
theorem fetch_transport_error
    (tryDecode : String → List Nat → Option String)
    (utf8Fallback : List Nat → String)
    (transport : RequestConfig → Except String HttpResponse)
    (args : FetchArgs) (msg : String)
    (h : transport (buildFetchConfig args) = Except.error msg) :
    fetchUrl tryDecode utf8Fallback transport args =
      { url := args.url, final_url := args.url, status := 0,
        content_type := none, encoding := none, headers := [],
        body := msg, truncated := false } := by
  rw [fetchUrl, h]

/-- Witness for C1: a transport that always throws `ECONNREFUSED`. -/
theorem fetch_transport_error_witness :
    fetchUrl (fun _ _ => none) (fun _ => "")
      (fun _ => Except.error "connect ECONNREFUSED")
      { url := "https://example.com/" } =
      { url := "https://example.com/", final_url := "https://example.com/",
        status := 0, content_type := none, encoding := none, headers := [],
        body := "connect ECONNREFUSED", truncated := false } :=
  fetch_transport_error (fun _ _ => none) (fun _ => "")
    (fun _ => Except.error "connect ECONNREFUSED")
    { url := "https://example.com/" } "connect ECONNREFUSED" rfl

/-- C4: the byte ceiling is `max_bytes` when positive and 200000
otherwise; `truncated` is true iff the raw length exceeds the ceiling, and
when it does, the body is computed from exactly the first `ceiling` bytes
of the raw response. -/
theorem fetch_truncation
    (tryDecode : String → List Nat → Option String)
    (utf8Fallback : List Nat → String)
    (transport : RequestConfig → Except String HttpResponse)
    (args : FetchArgs) (resp : HttpResponse) (B : Int)
    (h : transport (buildFetchConfig args) = Except.ok resp)
    (hB : B = match args.max_bytes with
              | some m => if 0 < m then m else 200000
              | none => 200000) :
    (fetchUrl tryDecode utf8Fallback transport args).truncated
        = decide ((resp.data.length : Int) > B) ∧
    ((resp.data.length : Int) > B →
      (fetchUrl tryDecode utf8Fallback transport args).body =
        (computeBody tryDecode utf8Fallback
          (detectEncoding (extractContentType resp.headers))
          (((extractContentType resp.headers).map strToLower).getD "")
          (resp.data.take B.toNat)).1) := by
  have hBn : normalizeMaxBytes args.max_bytes = B := by
    rw [hB]
    cases args.max_bytes with
    | none => simp [normalizeMaxBytes]
    | some m =>
        simp only [normalizeMaxBytes, Option.getD_some]
  constructor
  · simp [fetchUrl, h, hBn]
  · intro hlen
    simp [fetchUrl, h, hBn, if_pos hlen]

/-- Witness for C4: a 5-byte `text/plain` response against a 3-byte
ceiling, with a decoder that returns the charset label it was given. -/
theorem fetch_truncation_witness :
    (fetchUrl (fun c _ => some c) (fun _ => "")
      (fun _ => Except.ok
        { status := 200,
          headers := [("content-type", HeaderValue.str "text/plain")],
          data := [1, 2, 3, 4, 5] })
      { url := "https://e/", max_bytes := some 3 }).truncated = true ∧
    (fetchUrl (fun c _ => some c) (fun _ => "")
      (fun _ => Except.ok
        { status := 200,
          headers := [("content-type", HeaderValue.str "text/plain")],
          data := [1, 2, 3, 4, 5] })
      { url := "https://e/", max_bytes := some 3 }).body = "utf-8" := by
  have h := fetch_truncation (fun c _ => some c) (fun _ => "")
    (fun _ => Except.ok
      { status := 200,
        headers := [("content-type", HeaderValue.str "text/plain")],
        data := [1, 2, 3, 4, 5] })
    { url := "https://e/", max_bytes := some 3 }
    { status := 200,
      headers := [("content-type", HeaderValue.str "text/plain")],
      data := [1, 2, 3, 4, 5] } 3 rfl (by decide)
  refine ⟨?_, ?_⟩
  · rw [h.1]; decide
  · rw [h.2 (by decide)]; decide

/-- The spec's binary classification (§4.3 step 5): content-type matches
image/*, audio/*, video/*, application/pdf, application/zip, any
application/x-*, or is exactly application/octet-stream. -/
def specBinary (ct : String) : Prop :=
  strIsPrefixOf "image/" ct = true ∨ strIsPrefixOf "audio/" ct = true ∨
  strIsPrefixOf "video/" ct = true ∨
  strIsPrefixOf "application/pdf" ct = true ∨
  strIsPrefixOf "application/zip" ct = true ∨
  strIsPrefixOf "application/x-" ct = true ∨
  ct = "application/octet-stream"

instance (ct : String) : Decidable (specBinary ct) := by
  unfold specBinary; infer_instance

/-- C5: `fetchUrl` classifies a response as binary exactly when the spec's
pattern list matches the lower-cased content-type, and every response so
classified gets body `"Unsupported content-type"` regardless of the bytes
retrieved. -/
theorem fetch_binary_sentinel
    (tryDecode : String → List Nat → Option String)
    (utf8Fallback : List Nat → String)
    (transport : RequestConfig → Except String HttpResponse)
    (args : FetchArgs) (resp : HttpResponse)
    (h : transport (buildFetchConfig args) = Except.ok resp)
    (hbin : specBinary
      (((extractContentType resp.headers).map strToLower).getD "")) :
    (∀ s, isBinaryCt s = true ↔ specBinary s) ∧
    (fetchUrl tryDecode utf8Fallback transport args).body =
      "Unsupported content-type" := by
  have hiff : ∀ s, isBinaryCt s = true ↔ specBinary s := by
    intro s
    simp only [isBinaryCt, specBinary, Bool.or_eq_true, beq_iff_eq]
    tauto
  refine ⟨hiff, ?_⟩
  have hb : isBinaryCt
      (((extractContentType resp.headers).map strToLower).getD "") = true :=
    (hiff _).2 hbin
  simp [fetchUrl, h, computeBody, hb]

/-- Witness for C5: `image/png` content yields the sentinel body. -/
theorem fetch_binary_sentinel_witness :
    (fetchUrl (fun _ _ => some "decoded") (fun _ => "fallback")
      (fun _ => Except.ok
        { status := 200,
          headers := [("content-type", HeaderValue.str "image/png")],
          data := [137, 80, 78, 71] })
      { url := "https://img/" }).body = "Unsupported content-type" :=
  (fetch_binary_sentinel (fun _ _ => some "decoded") (fun _ => "fallback")
    (fun _ => Except.ok
      { status := 200,
        headers := [("content-type", HeaderValue.str "image/png")],
        data := [137, 80, 78, 71] })
    { url := "https://img/" }
    { status := 200,
      headers := [("content-type", HeaderValue.str "image/png")],
      data := [137, 80, 78, 71] } rfl (by decide)).2

/-- C6: for a successful non-binary fetch, the detected charset (lower-
cased `charset=` parameter, absent when none) drives decoding: a
successful decode keeps body and detected encoding; a failed decode falls
back to utf-8 for the body, recording `encoding = "utf-8"` only when no
charset had been detected. -/
theorem fetch_decode_fallback
    (tryDecode : String → List Nat → Option String)
    (utf8Fallback : List Nat → String)
    (transport : RequestConfig → Except String HttpResponse)
    (args : FetchArgs) (resp : HttpResponse)
    (det : Option String) (lim : List Nat)
    (h : transport (buildFetchConfig args) = Except.ok resp)
    (hdet : det = detectEncoding (extractContentType resp.headers))
    (hlim : lim =
      if (resp.data.length : Int) > normalizeMaxBytes args.max_bytes
      then resp.data.take (normalizeMaxBytes args.max_bytes).toNat
      else resp.data)
    (hnb : isBinaryCt
      (((extractContentType resp.headers).map strToLower).getD "") = false) :
    (∀ b, tryDecode (det.getD "utf-8") lim = some b →
      (fetchUrl tryDecode utf8Fallback transport args).body = b ∧
      (fetchUrl tryDecode utf8Fallback transport args).encoding = det) ∧
    (tryDecode (det.getD "utf-8") lim = none →
      (fetchUrl tryDecode utf8Fallback transport args).body
          = utf8Fallback lim ∧
      (fetchUrl tryDecode utf8Fallback transport args).encoding
          = some (det.getD "utf-8")) := by
  subst hdet hlim
  constructor
  · intro b hb
    constructor <;> simp [fetchUrl, h, computeBody, hnb, hb]
  · intro hn
    cases hd : detectEncoding (extractContentType resp.headers) with
    | none =>
        rw [hd] at hn
        simp only [Option.getD_none, gt_iff_lt] at hn
        constructor <;> simp [fetchUrl, h, computeBody, hnb, hn, hd]
    | some e =>
        rw [hd] at hn
        simp only [Option.getD_some, gt_iff_lt] at hn
        constructor <;> simp [fetchUrl, h, computeBody, hnb, hn, hd]

/-- Witness for C6: a declared `charset=sjis` whose decode fails; the body
falls back to utf-8 while the recorded encoding stays `"sjis"`. -/
theorem fetch_decode_fallback_witness :
    (fetchUrl (fun _ _ => none) (fun _ => "FALLBACK")
      (fun _ => Except.ok
        { status := 200,
          headers :=
            [("content-type", HeaderValue.str "text/plain; charset=sjis")],
          data := [200] })
      { url := "https://t/" }).body = "FALLBACK" ∧
    (fetchUrl (fun _ _ => none) (fun _ => "FALLBACK")
      (fun _ => Except.ok
        { status := 200,
          headers :=
            [("content-type", HeaderValue.str "text/plain; charset=sjis")],
          data := [200] })
      { url := "https://t/" }).encoding = some "sjis" := by
  have h := fetch_decode_fallback (fun _ _ => none) (fun _ => "FALLBACK")
    (fun _ => Except.ok
      { status := 200,
        headers :=
          [("content-type", HeaderValue.str "text/plain; charset=sjis")],
        data := [200] })
    { url := "https://t/" }
    { status := 200,
      headers :=
        [("content-type", HeaderValue.str "text/plain; charset=sjis")],
      data := [200] }
    (some "sjis") [200] rfl (by decide) (by decide) (by decide)
  exact ⟨(h.2 rfl).1, (h.2 rfl).2⟩

/-- C7: the request config follows 5 redirect hops when `follow_redirects`
(default true) and 0 when false; every status code is captured into the
result (validateStatus is always true), and with redirects disabled a
redirect response is returned as-is with `final_url` equal to the
original url. -/
theorem fetch_redirect_policy
    (tryDecode : String → List Nat → Option String)
    (utf8Fallback : List Nat → String)
    (transport : RequestConfig → Except String HttpResponse)
    (args : FetchArgs) (resp : HttpResponse)
    (h : transport (buildFetchConfig args) = Except.ok resp) :
    (buildFetchConfig args).maxRedirects
        = (if args.follow_redirects.getD true then 5 else 0) ∧
    (buildFetchConfig args).validateStatusAll = true ∧
    (fetchUrl tryDecode utf8Fallback transport args).status = resp.status ∧
    (args.follow_redirects = some false → resp.responseUrl = some args.url →
      args.url ≠ "" →
      (fetchUrl tryDecode utf8Fallback transport args).final_url
        = args.url) := by
  refine ⟨rfl, rfl, ?_, ?_⟩
  · simp [fetchUrl, h]
  · intro _ hres hurl
    have ht : isTruthy (some args.url) = true := by simp [isTruthy, hurl]
    simp [fetchUrl, h, resolveFinalUrl, hres, ht]

/-- Witness for C7: a 302 response with redirects disabled. -/
theorem fetch_redirect_policy_witness :
    (buildFetchConfig
      { url := "https://example.com/",
        follow_redirects := some false }).maxRedirects = 0 ∧
    (fetchUrl (fun _ _ => some "") (fun _ => "")
      (fun _ => Except.ok
        { status := 302,
          headers := [("location", HeaderValue.str "https://other/")],
          data := [],
          responseUrl := some "https://example.com/" })
      { url := "https://example.com/",
        follow_redirects := some false }).status = 302 ∧
    (fetchUrl (fun _ _ => some "") (fun _ => "")
      (fun _ => Except.ok
        { status := 302,
          headers := [("location", HeaderValue.str "https://other/")],
          data := [],
          responseUrl := some "https://example.com/" })
      { url := "https://example.com/",
        follow_redirects := some false }).final_url
      = "https://example.com/" := by
  have h := fetch_redirect_policy (fun _ _ => some "") (fun _ => "")
    (fun _ => Except.ok
      { status := 302,
        headers := [("location", HeaderValue.str "https://other/")],
        data := [],
        responseUrl := some "https://example.com/" })
    { url := "https://example.com/", follow_redirects := some false }
    { status := 302,
      headers := [("location", HeaderValue.str "https://other/")],
      data := [],
      responseUrl := some "https://example.com/" } rfl
  exact ⟨h.1, h.2.2.1, h.2.2.2 rfl rfl (by decide)⟩

/-- C10: truncation is computed from the raw length against the ceiling
independently of binary classification: an over-ceiling binary response
yields `truncated = true` together with the binary sentinel body. -/
theorem fetch_binary_truncation_independent
    (tryDecode : String → List Nat → Option String)
    (utf8Fallback : List Nat → String)
    (transport : RequestConfig → Except String HttpResponse)
    (args : FetchArgs) (resp : HttpResponse) (B : Int)
    (h : transport (buildFetchConfig args) = Except.ok resp)
    (hB : B = match args.max_bytes with
              | some m => if 0 < m then m else 200000
              | none => 200000)
    (hbin : isBinaryCt
      (((extractContentType resp.headers).map strToLower).getD "") = true)
    (hlen : (resp.data.length : Int) > B) :
    (fetchUrl tryDecode utf8Fallback transport args).truncated = true ∧
    (fetchUrl tryDecode utf8Fallback transport args).body
      = "Unsupported content-type" := by
  have hBn : normalizeMaxBytes args.max_bytes = B := by
    rw [hB]
    cases args.max_bytes with
    | none => simp [normalizeMaxBytes]
    | some m => simp only [normalizeMaxBytes, Option.getD_some]
  constructor
  · simp [fetchUrl, h, hBn, hlen]
  · simp [fetchUrl, h, hBn, computeBody, hbin]

/-- Witness for C10: a 3-byte `image/png` payload against a 2-byte
ceiling. -/
theorem fetch_binary_truncation_independent_witness :
    (fetchUrl (fun _ _ => some "decoded") (fun _ => "fallback")
      (fun _ => Except.ok
        { status := 200,
          headers := [("content-type", HeaderValue.str "image/png")],
          data := [1, 2, 3] })
      { url := "https://img2/", max_bytes := some 2 }).truncated = true ∧
    (fetchUrl (fun _ _ => some "decoded") (fun _ => "fallback")
      (fun _ => Except.ok
        { status := 200,
          headers := [("content-type", HeaderValue.str "image/png")],
          data := [1, 2, 3] })
      { url := "https://img2/", max_bytes := some 2 }).body
      = "Unsupported content-type" :=
  fetch_binary_truncation_independent (fun _ _ => some "decoded")
    (fun _ => "fallback")
    (fun _ => Except.ok
      { status := 200,
        headers := [("content-type", HeaderValue.str "image/png")],
        data := [1, 2, 3] })
    { url := "https://img2/", max_bytes := some 2 }
    { status := 200,
      headers := [("content-type", HeaderValue.str "image/png")],
      data := [1, 2, 3] } 2 rfl (by decide) (by decide) (by decide)

/-! ## Claim theorem: HTTP client factory -/

/-- C9: the proxy address is the first non-empty value among
`HTTPS_PROXY`, `https_proxy`, `HTTP_PROXY`, `http_proxy` in that order;
with none set the factory returns a direct client without warning, and
when agent construction fails it warns and returns a direct client. -/
theorem proxy_resolution (env : String → Option String)
    (mkAgent : String → Option String) :
    (isTruthy (env "HTTPS_PROXY") = true →
      resolveProxyEnv env = env "HTTPS_PROXY") ∧
    (isTruthy (env "HTTPS_PROXY") = false →
      isTruthy (env "https_proxy") = true →
      resolveProxyEnv env = env "https_proxy") ∧
    (isTruthy (env "HTTPS_PROXY") = false →
      isTruthy (env "https_proxy") = false →
      isTruthy (env "HTTP_PROXY") = true →
      resolveProxyEnv env = env "HTTP_PROXY") ∧
    (isTruthy (env "HTTPS_PROXY") = false →
      isTruthy (env "https_proxy") = false →
      isTruthy (env "HTTP_PROXY") = false →
      resolveProxyEnv env = env "http_proxy") ∧
    (isTruthy (resolveProxyEnv env) = false →
      createHttpClient mkAgent env = (HttpClient.direct, false)) ∧
    (∀ p, resolveProxyEnv env = some p → p ≠ "" →
      (mkAgent p = none →
        createHttpClient mkAgent env = (HttpClient.direct, true)) ∧
      (∀ a, mkAgent p = some a →
        createHttpClient mkAgent env = (HttpClient.proxied a, false))) := by
  refine ⟨?_, ?_, ?_, ?_, ?_, ?_⟩
  · intro h1
    simp [resolveProxyEnv, jsOr, h1]
  · intro h1 h2
    simp [resolveProxyEnv, jsOr, h1, h2]
  · intro h1 h2 h3
    simp [resolveProxyEnv, jsOr, h1, h2, h3]
  · intro h1 h2 h3
    simp [resolveProxyEnv, jsOr, h1, h2, h3]
  · intro h5
    simp [createHttpClient, h5]
  · intro p hp hne
    have ht : isTruthy (some p) = true := by
      simp [isTruthy, hne]
    constructor
    · intro hmk
      simp [createHttpClient, hp, ht, hmk]
    · intro a hmk
      simp [createHttpClient, hp, ht, hmk]

/-- Witness for C9: an empty `HTTPS_PROXY` is skipped, `HTTP_PROXY` wins,
and the constructed agent is used. -/
theorem proxy_resolution_witness :
    createHttpClient (fun s => some (String.append "agent:" s))
      (fun k => if k = "HTTP_PROXY" then some "http://proxy:3128"
                else if k = "HTTPS_PROXY" then some "" else none) =
      (HttpClient.proxied "agent:http://proxy:3128", false) :=
  ((proxy_resolution
      (fun k => if k = "HTTP_PROXY" then some "http://proxy:3128"
                else if k = "HTTPS_PROXY" then some "" else none)
      (fun s => some (String.append "agent:" s))).2.2.2.2.2
    "http://proxy:3128" (by decide) (by decide)).2
    "agent:http://proxy:3128" rfl

end WebSearch
